import Mathlib

/-!
# KeycapStudio – formal model of the geometry core

Shallow embedding of the final-version source files
`src/core/geometry/OptimizedKeycapGenerator.js`,
`src/core/geometry/geometryEngine.js` and `src/core/csg/csgEvaluator.js`
(the last segment of each source file, which is the version the claims cite).

Numeric values that the JavaScript code manipulates as IEEE doubles are
modelled as exact rationals (`ℚ`) where only control flow and exact
equalities matter, and as reals (`ℝ`) where the claims quote real-valued
formulas (`Math.pow`, `Math.sqrt`, `Math.cos`).
Fallible CSG kernel calls (`three-csg-ts`, a black box per the spec) are
modelled as an injected operator record returning `Except`.
-/

namespace KeycapStudio

/-- JS `Math.max(lo, Math.min(hi, x))` clamp on rationals. -/
def clampQ (lo hi x : ℚ) : ℚ := max lo (min hi x)

/-- JS `a || b` for an optional numeric field: `null`/`undefined`/`0` are
falsy, any other number is returned as is
(`const height = params.height || profileData.baseHeight`). -/
def jsOrNum (a : Option ℚ) (b : ℚ) : ℚ :=
  match a with
  | none => b
  | some x => if x = 0 then b else x

/-- `params.dishDepth != null ? clamp : default` — a `0` override is kept,
unlike the `||` pattern used for `height`. -/
def resolveDishDepth (d : Option ℚ) : ℚ :=
  match d with
  | some x => clampQ 0 3 x
  | none => (12 : ℚ) / 10   -- CHERRY_DISH_DEPTH = 1.2

-- ── constants/profiles.js ────────────────────────────────────────────────────

/-- One entry of the `PROFILES` table (`constants/profiles.js`). -/
structure ProfileData where
  baseHeight : ℚ
  topWidth : ℚ
  bottomWidth : ℚ
deriving DecidableEq

/-- `PROFILES[profile] || PROFILES['Cherry']` — lookup with Cherry fallback. -/
def profileLookup (profile : String) : ProfileData :=
  if profile = "Cherry" then ⟨115/10, 127/10, 18⟩
  else if profile = "SA" then ⟨145/10, 135/10, 18⟩
  else if profile = "DSA" then ⟨74/10, 127/10, 18⟩
  else if profile = "OEM" then ⟨119/10, 127/10, 18⟩
  else ⟨115/10, 127/10, 18⟩

/-- One entry of the `KEYCAP_SIZES` table. -/
structure SizeData where
  width : ℚ
  depth : ℚ
deriving DecidableEq

/-- `KEYCAP_SIZES[size] || KEYCAP_SIZES['1u']` — lookup with 1u fallback. -/
def sizeLookup (size : String) : SizeData :=
  if size = "1u" then ⟨18, 18⟩
  else if size = "1.25u" then ⟨225/10, 18⟩
  else if size = "1.5u" then ⟨27, 18⟩
  else if size = "1.75u" then ⟨315/10, 18⟩
  else if size = "2u" then ⟨36, 18⟩
  else if size = "2.25u" then ⟨405/10, 18⟩
  else if size = "2.75u" then ⟨495/10, 18⟩
  else if size = "6.25u" then ⟨1125/10, 18⟩
  else if size = "ISO-Enter" then ⟨225/10, 27⟩
  else ⟨18, 18⟩

-- ── KeycapParams ─────────────────────────────────────────────────────────────

/-- The parameter object handed to `OptimizedKeycapGenerator.generate`.
Absent (`undefined`/`null`) fields are `none`. -/
structure KeycapParams where
  profile : Option String := none
  size : Option String := none
  hasStem : Option Bool := none
  topRadius : Option ℚ := none
  wallThickness : Option ℚ := none
  dishDepth : Option ℚ := none
  height : Option ℚ := none
  color : Option String := none
  embossEnabled : Bool := false
  embossText : Option String := none
  embossFontSize : Option ℚ := none
  embossDepth : Option ℚ := none
deriving DecidableEq

/-- `this.performanceMode` of the generator. -/
inductive PerfMode
  | fast
  | balanced
  | quality
deriving DecidableEq

-- ── Symbolic mesh geometry ───────────────────────────────────────────────────

/-- Symbolic description of the geometry objects the generator and evaluator
build.  Each constructor records exactly the numeric inputs the source feeds
into the corresponding THREE.js / three-csg-ts construction, so two `Geom`
values are equal iff the source would build the mesh from identical inputs. -/
inductive Geom
  /-- `_createHighQualityMesh`: extruded rounded-rect shell, deformed,
  smooth-normalled. Fields: half-width, half-depth, corner radius,
  curve segments, extrude steps, height, top width, top depth, dish depth. -/
  | shell (halfW halfD cornerR : ℚ) (curveSeg steps : ℤ)
      (height topW topD dishDepth : ℚ)
  /-- `new THREE.BoxGeometry(w, h, d)` positioned at `position.y = py`. -/
  | box (w h d py : ℚ)
  | cylinder (radiusTop radiusBottom height : ℚ) (radialSegments : ℤ)
  | sphere (radius : ℚ) (widthSegments heightSegments : ℤ)
  /-- `clone().scale.set(sx, sy, sx); position.y = py` of a shell (inner void). -/
  | scaled (g : Geom) (sx sy : ℚ) (py : ℚ)
  /-- `new TextGeometry(text, { size, height: depth, ... })` translated so its
  base sits just below the keycap top (`keycapHeight - depth * 0.5`). -/
  | textGeom (text : String) (fontSize depth transY : ℚ)
  /-- `geometry.computeVertexNormals()` after a CSG pass. -/
  | withVertexNormals (g : Geom)
  /-- `mergeVertices(geometry)` (boolean-node post pass). -/
  | merged (g : Geom)
  /-- result of a three-csg-ts operation (evaluator side, success path). -/
  | csgUnion (a b : Geom)
  | csgSubtract (a b : Geom)
  | csgIntersect (a b : Geom)
deriving DecidableEq

/-- The Boolean Mesh Operator capability (three-csg-ts), injected as a black
box per spec §1/§9; each operation is fallible. -/
structure CsgOps where
  subtract : Geom → Geom → Except String Geom
  union : Geom → Geom → Except String Geom

-- ── OptimizedKeycapGenerator ────────────────────────────────────────────────

/-- `_calculateOptimalSegments(width, depth)`. -/
def calculateOptimalSegments (mode : PerfMode) (width depth : ℚ) : ℤ :=
  let maxDim := max width depth
  let segments : ℤ :=
    match mode with
    | .fast => ⌈maxDim / 4⌉
    | .balanced => ⌈maxDim / 2⌉
    | .quality => ⌈maxDim / (15/10)⌉
  max 8 (min 32 segments)

/-- `_getExtrudeSteps()`. -/
def getExtrudeSteps (mode : PerfMode) : ℤ :=
  match mode with
  | .fast => 8
  | .balanced => 15
  | .quality => 25

/-- `_createHighQualityMesh(bottomWidth, bottomDepth, height, profileData,
topRadius, dishDepth)`: rounded-rect outline (corner radius
`min(radius, min(halfW, halfD) * 0.4)` from `_createRoundedRectShape`),
extruded `height` upward, deformed, smooth-normalled at 35°. -/
def createHighQualityMesh (mode : PerfMode)
    (bottomWidth bottomDepth height topRadius dishDepth : ℚ) : Geom :=
  let curveSegments := calculateOptimalSegments mode bottomWidth bottomDepth
  let halfW := bottomWidth / 2
  let halfD := bottomDepth / 2
  let r := min topRadius (min halfW halfD * (4/10))
  Geom.shell halfW halfD r curveSegments (getExtrudeSteps mode)
    height (127/10) (127/10) dishDepth

/-- `_performCombinedCSG(outerMesh, width, height, wallThickness, hasStem)`.
All subtractions run as one sequential pass; there is **no** try/catch in the
source, so a failing `subtract` propagates as `Except.error`. -/
def performCombinedCSG (ops : CsgOps) (outerMesh : Geom)
    (width height wallThickness : ℚ) (hasStem : Bool) : Except String Geom :=
  let innerMeshes : List Geom :=
    if 1/10 < wallThickness ∧ wallThickness < width / 2 then
      [Geom.scaled outerMesh
        (max (1/10) ((width - wallThickness * 2) / width))
        (max (1/10) ((height - wallThickness) / height))
        (wallThickness * (5/10))]
    else []
  let stemMeshes : List Geom :=
    if hasStem then
      [Geom.box (415/100) 4 (135/100) 2,   -- hBar: CROSS_SIZE × STEM_DEPTH × CROSS_THICK at y = 2
       Geom.box (135/100) 4 (415/100) 2]   -- vBar
    else []
  let subtractMeshes := innerMeshes ++ stemMeshes
  if subtractMeshes = [] then Except.ok outerMesh
  else do
    let r ← subtractMeshes.foldlM (fun acc m => ops.subtract acc m) outerMesh
    pure (Geom.withVertexNormals r)

/-- `_applyTextEmboss(mesh, params, keycapHeight)` — the whole body is inside
`try { ... } catch { return mesh }`, so any failure (font layout or the CSG
union) returns the pre-emboss mesh unchanged. -/
def applyTextEmboss (ops : CsgOps) (mesh : Geom) (p : KeycapParams)
    (keycapHeight : ℚ) : Geom :=
  let text := (p.embossText.getD "").trim
  let fontSize := clampQ 2 10 (p.embossFontSize.getD 5)
  let depth := clampQ (1/10) 2 (p.embossDepth.getD (4/10))
  match ops.union mesh (Geom.textGeom text fontSize depth
      (keycapHeight - depth * (5/10))) with
  | Except.ok r => Geom.withVertexNormals r
  | Except.error _ => mesh

/-- The tail of `generate`: `if (params.embossEnabled &&
params.embossText?.trim()) mesh = this._applyTextEmboss(mesh, params,
height)`. -/
def embossStage (ops : CsgOps) (p : KeycapParams) (keycapHeight : ℚ)
    (mesh : Geom) : Geom :=
  if p.embossEnabled ∧ (p.embossText.getD "").trim ≠ "" then
    applyTextEmboss ops mesh p keycapHeight
  else mesh

/-- `OptimizedKeycapGenerator.generate(params)` (final version,
`OptimizedKeycapGenerator.js` lines 560–607): clamp parameters, build the
shell, run the combined subtraction pass, then the optional text emboss. -/
def generate (ops : CsgOps) (mode : PerfMode) (p : KeycapParams) :
    Except String Geom :=
  let profile := p.profile.getD "Cherry"
  let size := p.size.getD "1u"
  let hasStem := p.hasStem.getD true
  let topRadius := clampQ (1/10) 3 (p.topRadius.getD (5/10))
  let wallThickness := clampQ (8/10) (35/10) (p.wallThickness.getD (15/10))
  let dishDepth := resolveDishDepth p.dishDepth
  let profileData := profileLookup profile
  let sizeData := sizeLookup size
  let height := jsOrNum p.height profileData.baseHeight
  let bottomWidth := sizeData.width
  let bottomDepth := sizeData.depth
  let mesh := createHighQualityMesh mode bottomWidth bottomDepth height
      topRadius dishDepth
  let csgResult : Except String Geom :=
    if hasStem ∨ 0 < wallThickness then
      performCombinedCSG ops mesh bottomWidth height wallThickness hasStem
    else Except.ok mesh
  csgResult.map (embossStage ops p height)

/-- `_applyTextEmboss` (and hence `embossStage`) reads only the emboss fields
of the params record. -/
theorem embossStage_congr (ops : CsgOps) (H : ℚ) (p q : KeycapParams)
    (he : p.embossEnabled = q.embossEnabled)
    (ht : p.embossText = q.embossText)
    (hf : p.embossFontSize = q.embossFontSize)
    (hd : p.embossDepth = q.embossDepth) :
    embossStage ops p H = embossStage ops q H := by
  funext mesh
  unfold embossStage applyTextEmboss
  rw [he, ht, hf, hd]

/-- `OptimizedKeycapGenerator.generatePreview(params)` — shell only, no CSG. -/
def generatePreview (mode : PerfMode) (p : KeycapParams) : Geom :=
  let profile := p.profile.getD "Cherry"
  let size := p.size.getD "1u"
  let topRadius := clampQ (1/10) 3 (p.topRadius.getD (5/10))
  let dishDepth := resolveDishDepth p.dishDepth
  let profileData := profileLookup profile
  let sizeData := sizeLookup size
  let height := jsOrNum p.height profileData.baseHeight
  createHighQualityMesh mode sizeData.width sizeData.depth height
    topRadius dishDepth

-- ── geometryEngine.js ────────────────────────────────────────────────────────

/-- Evaluation mode threaded through `evalNode` (`'preview' | 'export'`). -/
inductive Mode
  | preview
  | export
deriving DecidableEq

/-- `_keycapCacheKey(p)` (geometryEngine.js lines 34–37): the
geometry-affecting params only — `profile`/`size` defaulted to `''`, then
`topRadius`, `wallThickness`, `dishDepth`, `height`, `hasStem`; color is
deliberately excluded.  The source joins them into a string with `|`; since
the fields are typed, the tuple is keyed equivalently. -/
structure CacheKey where
  profile : String
  size : String
  topRadius : Option ℚ
  wallThickness : Option ℚ
  dishDepth : Option ℚ
  height : Option ℚ
  hasStem : Option Bool
deriving DecidableEq

def keycapCacheKey (p : KeycapParams) : CacheKey :=
  ⟨p.profile.getD "", p.size.getD "", p.topRadius, p.wallThickness,
   p.dishDepth, p.height, p.hasStem⟩

/-- Association-list find (models `Map.has` / `Map.get`). -/
def assocFind {α β : Type} [DecidableEq α] : List (α × β) → α → Option β
  | [], _ => none
  | (k, v) :: rest, key => if key = k then some v else assocFind rest key

/-- Mutable state of the engine module: a heap of geometry objects (so that
aliasing and in-place mutation of `THREE.BufferGeometry` objects is explicit),
the module-level `_keycapGeometryCache` mapping cache keys to heap ids of the
stored geometry objects, and an instrumentation count of how many times the
keycap generator was invoked (the spy of spec §8). -/
structure EngineState where
  heap : List (ℕ × Geom)
  nextId : ℕ
  cache : List (CacheKey × ℕ)
  genCount : ℕ
deriving DecidableEq

def EngineState.init : EngineState := ⟨[], 0, [], 0⟩

/-- Allocate a fresh geometry object on the heap. -/
def allocGeom (g : Geom) (s : EngineState) : ℕ × EngineState :=
  (s.nextId, ⟨(s.nextId, g) :: s.heap, s.nextId + 1, s.cache, s.genCount⟩)

def lookupGeom (s : EngineState) (gid : ℕ) : Option Geom :=
  assocFind s.heap gid

/-- `geometry.clone()`: a fresh object with a copy of the data. -/
def cloneGeom (gid : ℕ) (s : EngineState) : ℕ × EngineState :=
  allocGeom ((lookupGeom s gid).getD (Geom.box 0 0 0 0)) s

/-- In-place mutation of the geometry object `gid` (what a caller does to a
mesh it was handed). -/
def setGeom (s : EngineState) (gid : ℕ) (g : Geom) : EngineState :=
  ⟨s.heap.map (fun kv => if kv.1 = gid then (gid, g) else kv),
   s.nextId, s.cache, s.genCount⟩

/-- The collaborators `evalNode` dispatches to: the keycap generator's two
entry points (as geometry-producing functions of the params; the generator
itself is modelled separately above) and the three-csg-ts operations used by
Boolean nodes (success path — the evaluator wraps them in no handler). -/
structure EvalEnv where
  genExport : KeycapParams → Geom
  genPreview : KeycapParams → Geom

/-- `_evalKeycap(node, mode)` (geometryEngine.js lines 92–119), restricted to
its geometry management: in export mode probe `_keycapGeometryCache`; on a hit
hand out a clone of the cached object; on a miss run the generator, store a
clone and hand out the original.  In preview mode there is no cache probe at
all — `generatePreview` runs every time.  Returns the heap id of the geometry
handed to the caller. -/
def evalKeycapGeometry (env : EvalEnv) (mode : Mode) (p : KeycapParams)
    (s : EngineState) : ℕ × EngineState :=
  match mode with
  | .export =>
    let key := keycapCacheKey p
    match assocFind s.cache key with
    | some cachedId => cloneGeom cachedId s
    | none =>
      let s := { s with genCount := s.genCount + 1 }
      let (gid, s) := allocGeom (env.genExport p) s
      let (storedId, s) := cloneGeom gid s
      (gid, { s with cache := (key, storedId) :: s.cache })
  | .preview =>
    let s := { s with genCount := s.genCount + 1 }
    allocGeom (env.genPreview p) s

-- ── Scene nodes and evaluation results ──────────────────────────────────────

/-- The scene-document node tree (`sceneDocument.js` tagged union). -/
inductive SceneNode
  | primitive (prim : String) (radiusTop radiusBottom height radius width
      depth : Option ℚ) (color : Option String)
      (position rotation : Option (ℚ × ℚ × ℚ))
  | keycap (params : KeycapParams) (position rotation : Option (ℚ × ℚ × ℚ))
  | boolean (operation : Option String) (children : List SceneNode)
      (position rotation : Option (ℚ × ℚ × ℚ))
  | group (children : List SceneNode)
      (position rotation : Option (ℚ × ℚ × ℚ))
  | unknown

/-- Material state on an evaluated mesh. -/
structure Material where
  color : String
  transparent : Bool := false
  opacity : ℚ := 1
deriving DecidableEq

/-- Object transform: `_applyTransform` overwrites position/rotation only when
the node carries them (`if (node.position) ...`). -/
structure Transform where
  position : Option (ℚ × ℚ × ℚ) := none
  rotation : Option (ℚ × ℚ × ℚ) := none
deriving DecidableEq

/-- An evaluated `THREE.Object3D`: either a mesh (heap geometry reference,
material, transform) or a group of objects. -/
inductive Obj
  | mesh (geomId : ℕ) (material : Material) (transform : Transform)
  | group (children : List Obj) (transform : Transform)

/-- `_applyTransform(obj, node)`. -/
def applyTransformTo (t : Transform) (position rotation : Option (ℚ × ℚ × ℚ)) :
    Transform :=
  ⟨match position with | some v => some v | none => t.position,
   match rotation with | some v => some v | none => t.rotation⟩

def Obj.applyTransform (o : Obj) (position rotation : Option (ℚ × ℚ × ℚ)) : Obj :=
  match o with
  | .mesh g m t => .mesh g m (applyTransformTo t position rotation)
  | .group cs t => .group cs (applyTransformTo t position rotation)

/-- The ghost pass of the preview Boolean branch: for a mesh, clone the
material and make it translucent; a group has no `material` so the `if` in the
source skips it. -/
def Obj.ghost (o : Obj) : Obj :=
  match o with
  | .mesh g m t => .mesh g { m with transparent := true, opacity := 1/4 } t
  | .group cs t => .group cs t

/-- Geometry reference of an object, when it is a mesh (`CSG.fromMesh`). -/
def Obj.geomId? : Obj → Option ℕ
  | .mesh g _ _ => some g
  | .group _ _ => none

/-- `_evalPrimitive(node)`. -/
def evalPrimitive (prim : String)
    (radiusTop radiusBottom height radius width depth : Option ℚ)
    (color : Option String) (position rotation : Option (ℚ × ℚ × ℚ))
    (s : EngineState) : Option Obj × EngineState :=
  let geometry : Geom :=
    if prim = "cylinder" then
      Geom.cylinder (radiusTop.getD 9) (radiusBottom.getD 9)
        (height.getD (115/10)) 32
    else if prim = "sphere" then
      Geom.sphere (radius.getD 9) 32 16
    else
      Geom.box (width.getD 18) (height.getD (115/10)) (depth.getD 18) 0
  let (gid, s) := allocGeom geometry s
  (some ((Obj.mesh gid { color := color.getD "#cccccc" } ⟨none, none⟩).applyTransform
      position rotation), s)

mutual

/-- `evalNode(node, mode)` (geometryEngine.js lines 190–199): dispatch on the
node tag; unknown nodes evaluate to `null`. -/
def evalNode (env : EvalEnv) (node : SceneNode) (mode : Mode)
    (s : EngineState) : Option Obj × EngineState :=
  match node with
  | .primitive prim rt rb h r w d c pos rot =>
      evalPrimitive prim rt rb h r w d c pos rot s
  | .keycap p pos rot =>
      let (gid, s) := evalKeycapGeometry env mode p s
      let m : Material := { color := p.color.getD "#ffffff" }
      (some ((Obj.mesh gid m ⟨none, none⟩).applyTransform pos rot), s)
  | .boolean operation children pos rot =>
      match mode with
      | .preview =>
          -- Preview: render children without CSG (first opaque, rest ghost).
          let (objs, s) := evalGhostChildren env children mode s true
          (some ((Obj.group objs ⟨none, none⟩).applyTransform pos rot), s)
      | .export =>
          match children with
          | [] => (none, s)
          | [c] => evalNode env c mode s
          | c0 :: rest =>
            match evalNode env c0 mode s with
            | (none, s) => (none, s)
            | (some base, s) =>
              match base.geomId? with
              | none => (none, s)
              | some baseGid =>
                let baseGeom := (lookupGeom s baseGid).getD (Geom.box 0 0 0 0)
                let (resultGeom, s) :=
                  evalBooleanFold env operation baseGeom rest mode s
                let (gid, s) :=
                  allocGeom (Geom.withVertexNormals (Geom.merged resultGeom)) s
                let mat : Material :=
                  match base with
                  | .mesh _ m _ => m
                  | .group _ _ => { color := "#cccccc" }
                (some ((Obj.mesh gid mat ⟨none, none⟩).applyTransform pos rot), s)
  | .group children pos rot =>
      let (objs, s) := evalGroupChildren env children mode s
      (some ((Obj.group objs ⟨none, none⟩).applyTransform pos rot), s)
  | .unknown => (none, s)

/-- The preview Boolean branch's `children.forEach((child, i) => ...)`:
evaluate each child; ghost every child except the first that is rendered. -/
def evalGhostChildren (env : EvalEnv) (children : List SceneNode) (mode : Mode)
    (s : EngineState) (isFirst : Bool) : List Obj × EngineState :=
  match children with
  | [] => ([], s)
  | c :: rest =>
    match evalNode env c mode s with
    | (none, s) => evalGhostChildren env rest mode s isFirst
    | (some o, s) =>
      let o := if isFirst then o else o.ghost
      let (objs, s) := evalGhostChildren env rest mode s false
      (o :: objs, s)

/-- The export Boolean branch's accumulator loop (`for (let i = 1; ...)`);
children evaluating to `null` or without a geometry are skipped. -/
def evalBooleanFold (env : EvalEnv) (operation : Option String) (acc : Geom)
    (children : List SceneNode) (mode : Mode) (s : EngineState) :
    Geom × EngineState :=
  match children with
  | [] => (acc, s)
  | c :: rest =>
    match evalNode env c mode s with
    | (none, s) => evalBooleanFold env operation acc rest mode s
    | (some o, s) =>
      match o.geomId? with
      | none => evalBooleanFold env operation acc rest mode s
      | some gid =>
        let childGeom := (lookupGeom s gid).getD (Geom.box 0 0 0 0)
        let acc :=
          if operation = some "union" then Geom.csgUnion acc childGeom
          else if operation = some "intersect" then
            Geom.csgIntersect acc childGeom
          else Geom.csgSubtract acc childGeom
        evalBooleanFold env operation acc rest mode s

/-- `_evalGroup`'s child loop. -/
def evalGroupChildren (env : EvalEnv) (children : List SceneNode) (mode : Mode)
    (s : EngineState) : List Obj × EngineState :=
  match children with
  | [] => ([], s)
  | c :: rest =>
    match evalNode env c mode s with
    | (none, s) => evalGroupChildren env rest mode s
    | (some o, s) =>
      let (objs, s) := evalGroupChildren env rest mode s
      (o :: objs, s)

end

-- ── csgEvaluator.js: off-thread export shim ─────────────────────────────────

/-- Binary STL bytes handed back by an export. -/
abbrev StlBytes := List ℕ

/-- What happens on the worker side of one export request. -/
inductive WorkerOutcome
  /-- `new Worker(...)` threw (e.g. in test environments). -/
  | constructionFailure
  /-- the worker posted `{ buffer }`. -/
  | ok (bytes : StlBytes)
  /-- the worker posted `{ error: msg }` (its own try/catch tripped). -/
  | errorResponse (msg : String)
  /-- the worker crashed; `onerror` fired with `event.message` (possibly
  absent). -/
  | crash (msg : Option String)

/-- `_exportInWorker(scene)` (csgEvaluator.js lines 301–312) together with the
`onmessage`/`onerror` handlers installed by `_getOrCreateWorker`
(lines 254–291): how each worker outcome settles the request's promise.
Construction failure rejects with the sentinel `'worker_unavailable'`; a
worker `{ error }` response rejects with that message; a crash rejects with
`event.message ?? 'Worker error'`. -/
def exportInWorker (outcome : WorkerOutcome) : Except String StlBytes :=
  match outcome with
  | .constructionFailure => Except.error "worker_unavailable"
  | .ok bytes => Except.ok bytes
  | .errorResponse msg => Except.error msg
  | .crash msg => Except.error (msg.getD "Worker error")

/-- `exportSceneSTL` (csgEvaluator.js lines 324–347), reduced to how the STL
bytes are obtained: await the worker; on rejection, rethrow unless the message
is exactly `'worker_unavailable'`, in which case evaluate synchronously on the
calling thread (`evaluateScene(scene, 'export')` + `STLExporter`), whose own
outcome `syncResult` is then returned. -/
def exportSceneSTLBytes (workerResult : Except String StlBytes)
    (syncResult : Except String StlBytes) : Except String StlBytes :=
  match workerResult with
  | Except.ok bytes => Except.ok bytes
  | Except.error msg =>
    if msg = "worker_unavailable" then syncResult else Except.error msg

-- ── csgEvaluator.js: FIFO request queue (C9) ────────────────────────────────

/-- Events on the module-level `_exportQueue`: a call to `_exportInWorker`
(push the `{resolve, reject}` pair, then `postMessage`), one worker response
message (`onmessage` shifts exactly one pending entry and settles it), or a
worker crash (`onerror` settles the active entry, then drains the rest in
order). -/
inductive ShimEvent
  | submit (reqId : ℕ)
  | response
  | crash

/-- Queue state: `pending` in submission order, and `completed` — the request
ids whose promises have been settled (resolved or rejected), in settlement
order. -/
structure ShimState where
  pending : List ℕ
  completed : List ℕ
deriving DecidableEq

def ShimState.init : ShimState := ⟨[], []⟩

/-- One event step of the queue, as implemented by `_exportInWorker` /
`w.onmessage` / `w.onerror`. An orphaned response on an empty queue is
ignored (`if (!cb) return`). -/
def shimStep (s : ShimState) (e : ShimEvent) : ShimState :=
  match e with
  | .submit reqId => ⟨s.pending ++ [reqId], s.completed⟩
  | .response =>
    match s.pending with
    | [] => s
    | reqId :: rest => ⟨rest, s.completed ++ [reqId]⟩
  | .crash => ⟨[], s.completed ++ s.pending⟩

def shimRun (events : List ShimEvent) : ShimState :=
  events.foldl shimStep ShimState.init

/-- The request ids submitted by a list of events, in submission order. -/
def submittedIds : List ShimEvent → List ℕ
  | [] => []
  | ShimEvent.submit reqId :: rest => reqId :: submittedIds rest
  | ShimEvent.response :: rest => submittedIds rest
  | ShimEvent.crash :: rest => submittedIds rest

-- ── Real-valued vertex math (deformation pass and smooth normals) ───────────

/-- A THREE.Vector3 / one vertex of a BufferGeometry position attribute. -/
abbrev Vec3 := ℝ × ℝ × ℝ

def dot3 (a b : Vec3) : ℝ := a.1 * b.1 + a.2.1 * b.2.1 + a.2.2 * b.2.2

def add3 (a b : Vec3) : Vec3 := (a.1 + b.1, a.2.1 + b.2.1, a.2.2 + b.2.2)

def sub3 (a b : Vec3) : Vec3 := (a.1 - b.1, a.2.1 - b.2.1, a.2.2 - b.2.2)

def cross3 (a b : Vec3) : Vec3 :=
  (a.2.1 * b.2.2 - a.2.2 * b.2.1,
   a.2.2 * b.1 - a.1 * b.2.2,
   a.1 * b.2.1 - a.2.1 * b.1)

def smul3 (c : ℝ) (a : Vec3) : Vec3 := (c * a.1, c * a.2.1, c * a.2.2)

noncomputable def norm3 (a : Vec3) : ℝ := Real.sqrt (dot3 a a)

/-- `THREE.Vector3.normalize()`: `divideScalar(this.length() || 1)` — the
zero vector (length `0`, falsy) is divided by `1` and stays zero. -/
noncomputable def normalize3 (a : Vec3) : Vec3 :=
  if norm3 a = 0 then a else smul3 (1 / norm3 a) a

/-- `_easeInOutCubic(t)`. -/
noncomputable def easeInOutCubic (t : ℝ) : ℝ :=
  if t < 1/2 then 4 * t ^ 3 else 1 - (-2 * t + 2) ^ 3 / 2

/-- The loop body of `_applyKeycapDeformation` applied to one vertex
(OptimizedKeycapGenerator.js lines 740–776): trapezoid scale by the eased
height fraction, then, for `normalizedY > 0.8`, the dish sag
`Math.pow(Math.min(distXZ / maxDim, 1.0), 2.2) * dishDepth * topFactor`. -/
noncomputable def deformVertex (bottomWidth bottomDepth height topWidth
    topDepth dishDepth : ℝ) (v : Vec3) : Vec3 :=
  let x := v.1
  let y := v.2.1
  let z := v.2.2
  let normalizedY := max 0 (min 1 (y / height))
  let eased := easeInOutCubic normalizedY
  let scaleX := 1 - eased * (1 - topWidth / bottomWidth)
  let scaleZ := 1 - eased * (1 - topDepth / bottomDepth)
  let newX := x * scaleX
  let newZ := z * scaleZ
  let newY :=
    if 8/10 < normalizedY then
      let topFactor := (normalizedY - 8/10) / (2/10)
      let distXZ := Real.sqrt (newX * newX + newZ * newZ)
      let maxDim := max topWidth topDepth / 2
      let normalizedDist := min (distXZ / maxDim) 1
      let sag := normalizedDist ^ (22/10 : ℝ) * dishDepth * topFactor
      y - sag
    else y
  (newX, newY, newZ)

/-- The dish-sag formula exactly as the claim states it:
`sag = (radialDistance/maxTopDim)^2.2 × dishDepth × ((t-0.8)/0.2)` with no
clamping of the normalized radial distance. -/
noncomputable def claimedDishSag (topWidth topDepth dishDepth radialDist
    t : ℝ) : ℝ :=
  (radialDist / (max topWidth topDepth / 2)) ^ (22/10 : ℝ) * dishDepth *
    ((t - 8/10) / (2/10))

/-- The dish-sag formula amended to match the source: the normalized radial
distance is clamped to `1` before exponentiation
(`Math.min(distXZ / maxDim, 1.0)`). -/
noncomputable def clampedDishSag (topWidth topDepth dishDepth radialDist
    t : ℝ) : ℝ :=
  (min (radialDist / (max topWidth topDepth / 2)) 1) ^ (22/10 : ℝ) *
    dishDepth * ((t - 8/10) / (2/10))

-- ── `_smoothNormals(geometry, angleThresholdDeg)` ───────────────────────────

/-- An indexed triangulated mesh, as `_smoothNormals` consumes it. -/
structure SNMesh where
  positions : List Vec3
  indices : List (ℕ × ℕ × ℕ)

def vertexAt (ps : List Vec3) (i : ℕ) : Vec3 := ps.getD i (0, 0, 0)

/-- Step 1 of `_smoothNormals`: one normal per triangle face,
`normalize(cross(p1 - p0, p2 - p0))`. -/
noncomputable def faceNormal (m : SNMesh) (i : ℕ) : Vec3 :=
  let f := m.indices.getD i (0, 0, 0)
  let p0 := vertexAt m.positions f.1
  let p1 := vertexAt m.positions f.2.1
  let p2 := vertexAt m.positions f.2.2
  normalize3 (cross3 (sub3 p1 p0) (sub3 p2 p0))

/-- How many of a face's three index slots name vertex `v`. -/
def faceVertexCount (f : ℕ × ℕ × ℕ) (v : ℕ) : ℕ :=
  (if f.1 = v then 1 else 0) + (if f.2.1 = v then 1 else 0) +
    (if f.2.2 = v then 1 else 0)

/-- Step 2 of `_smoothNormals`: the CSR vertex→incident-face adjacency.  The
fill loop walks faces in order and appends the face id once per occurrence of
the vertex in the face, so vertex `v`'s slice of `faceList` is exactly this
list. -/
def incidentFaces (indices : List (ℕ × ℕ × ℕ)) (v : ℕ) : List ℕ :=
  (indices.enum.map (fun p => List.replicate (faceVertexCount p.2 v) p.1)).flatten

/-- Step 3 of `_smoothNormals` for one vertex: accumulate the normals of the
incident faces whose dot product with the first incident face's normal exceeds
`thresholdDot`; normalize the sum, falling back to the base normal when the
sum is degenerate.  Vertices with no incident face keep the zero-initialised
entry (`continue`). -/
noncomputable def smoothNormalAt (m : SNMesh) (thresholdDot : ℝ) (v : ℕ) :
    Vec3 :=
  match incidentFaces m.indices v with
  | [] => (0, 0, 0)
  | f0 :: rest =>
    let base := faceNormal m f0
    let sum := (f0 :: rest).foldl
      (fun acc fi =>
        let fn := faceNormal m fi
        if thresholdDot < dot3 base fn then add3 acc fn else acc)
      (0, 0, 0)
    let len := norm3 sum
    if 0 < len then smul3 (1 / len) sum else base

/-- `_smoothNormals(geometry, angleThresholdDeg)` per vertex:
`thresholdDot = Math.cos(THREE.MathUtils.degToRad(angleThresholdDeg))`. -/
noncomputable def smoothNormals (m : SNMesh) (angleThresholdDeg : ℝ)
    (v : ℕ) : Vec3 :=
  smoothNormalAt m (Real.cos (angleThresholdDeg * Real.pi / 180)) v

/-- Sum of the normals of all faces incident to `v` (what the claim's
"average ... of all faces incident" normalizes). -/
noncomputable def incidentNormalSum (m : SNMesh) (v : ℕ) : Vec3 :=
  (incidentFaces m.indices v).foldl (fun acc fi => add3 acc (faceNormal m fi))
    (0, 0, 0)

-- ── Concrete instances used by counterexamples and witnesses ───────────────

/-- A CSG operator whose subtraction always fails. -/
def subtractFailOps : CsgOps :=
  ⟨fun _ _ => Except.error "csg failed", fun _ _ => Except.error "csg failed"⟩

/-- A CSG operator that always succeeds (symbolic result tree). -/
def csgOkOps : CsgOps :=
  ⟨fun a b => Except.ok (Geom.csgSubtract a b),
   fun a b => Except.ok (Geom.csgUnion a b)⟩

/-- A concrete generator environment for the evaluator. -/
def constEnv : EvalEnv :=
  ⟨fun _ => Geom.box 1 1 1 0, fun _ => Geom.box 2 2 2 0⟩

/-- Identity of the shape-affecting fields of two param records (the fields
the spec lists: profile, size, topRadius, wallThickness, dishDepth, height,
hasStem — not color). -/
def shapeParamsEq (p1 p2 : KeycapParams) : Prop :=
  p1.profile = p2.profile ∧ p1.size = p2.size ∧ p1.topRadius = p2.topRadius ∧
  p1.wallThickness = p2.wallThickness ∧ p1.dishDepth = p2.dishDepth ∧
  p1.height = p2.height ∧ p1.hasStem = p2.hasStem

/-- Evaluate two keycap nodes in sequence from a fresh engine state and
return the final state (instrumentation scenario of spec §8). -/
def evalKeycapTwice (env : EvalEnv) (mode : Mode) (p1 p2 : KeycapParams) :
    EngineState :=
  (evalKeycapGeometry env mode p2
    (evalKeycapGeometry env mode p1 EngineState.init).2).2

/-- A concrete box primitive node (all params defaulted). -/
def boxNode : SceneNode :=
  SceneNode.primitive "box" none none none none none none none none none

/-- A concrete indexed mesh for the smooth-normal extremes: two triangles
sharing the edge `0–1`, with unit face normals `(0,0,1)` and `(0,-1,0)`. -/
def cxMesh : SNMesh :=
  ⟨[(0,0,0), (1,0,0), (0,1,0), (0,0,-1)], [(0,1,2), (0,3,1)]⟩

-- ═══════════════════════════════ Theorems ═══════════════════════════════════

-- ── C8: out-of-range topRadius is silently clamped ──────────────────────────

/-- **C8.** For every `KeycapParams` `p` (and any injected CSG operator and
performance mode), `generate` with `topRadius = 999` returns the same mesh as
`generate` with `topRadius = 3.0`: the out-of-range value is silently clamped
to the nearest valid bound (`Math.max(0.1, Math.min(3.0, ...))`) before any
use, and never causes an error or rejection. -/
theorem generate_topRadius_clamped (ops : CsgOps) (mode : PerfMode)
    (p : KeycapParams) :
    generate ops mode { p with topRadius := some 999 } =
      generate ops mode { p with topRadius := some 3 } := by
  simp only [generate]
  rw [embossStage_congr ops _ { p with topRadius := some 999 }
    { p with topRadius := some 3 } rfl rfl rfl rfl]
  norm_num [clampQ]

/-- Witness for C8 at concrete inputs (the theorem has no `Prop` hypothesis;
recorded for concreteness all the same). -/
theorem generate_topRadius_clamped_canary :
    clampQ (1/10) 3 999 = clampQ (1/10) 3 3 := by
  norm_num [clampQ]

-- ── C10: falsy height override falls back to the profile base height ────────

/-- **C10.** A `height` override of `0` (or a missing/null one) is falsy, so
`const height = params.height || profileData.baseHeight` resolves to the
profile's base height: `generate` and `generatePreview` behave exactly as if
no override were given, and since every profile's base height is positive, a
zero-height override can never produce a zero-height keycap. -/
theorem generate_height_falsy_uses_profile_base (ops : CsgOps)
    (mode : PerfMode) (p : KeycapParams) :
    generate ops mode { p with height := some 0 } =
      generate ops mode { p with height := none } ∧
    generatePreview mode { p with height := some 0 } =
      generatePreview mode { p with height := none } ∧
    jsOrNum (some 0) (profileLookup (p.profile.getD "Cherry")).baseHeight =
      (profileLookup (p.profile.getD "Cherry")).baseHeight ∧
    0 < (profileLookup (p.profile.getD "Cherry")).baseHeight := by
  refine ⟨?_, ?_, ?_, ?_⟩
  · simp only [generate]
    rw [embossStage_congr ops _ { p with height := some 0 }
      { p with height := none } rfl rfl rfl rfl]
    simp [jsOrNum]
  · simp [generatePreview, jsOrNum]
  · simp [jsOrNum]
  · unfold profileLookup
    split
    · norm_num
    · split
      · norm_num
      · split
        · norm_num
        · split <;> norm_num

-- ── C2: worker failure handling in exportSceneSTL ───────────────────────────

/-- **C2 counterexample.** A worker runtime error (`{ error: 'boom' }`) does
*not* trigger the synchronous fallback: `exportSceneSTL` rethrows it, because
the fallback guard `if (workerErr.message !== 'worker_unavailable') throw`
only matches the construction-failure sentinel.  With a fallback that would
have succeeded (`Except.ok []`), the call still surfaces the worker error. -/
theorem export_runtime_error_not_fallback_cx :
    exportSceneSTLBytes (exportInWorker (WorkerOutcome.errorResponse "boom"))
        (Except.ok []) = Except.error "boom" ∧
    (Except.error "boom" : Except String StlBytes) ≠ Except.ok [] := by
  constructor
  · rfl
  · simp

/-- **C2 amended.** The synchronous fallback fires only for the
construction-failure sentinel `'worker_unavailable'`; a worker runtime error
response or crash whose message differs from the sentinel is surfaced to the
caller unchanged, with no fallback. -/
theorem export_fallback_only_on_construction_failure
    (sync : Except String StlBytes) (msg : String)
    (hmsg : msg ≠ "worker_unavailable") :
    exportSceneSTLBytes (exportInWorker WorkerOutcome.constructionFailure)
        sync = sync ∧
    exportSceneSTLBytes (exportInWorker (WorkerOutcome.errorResponse msg))
        sync = Except.error msg ∧
    exportSceneSTLBytes (exportInWorker (WorkerOutcome.crash (some msg)))
        sync = Except.error msg := by
  refine ⟨rfl, ?_, ?_⟩ <;>
    simp [exportSceneSTLBytes, exportInWorker, hmsg]

/-- Witness for C2 amended at a concrete sync result and error message. -/
theorem export_fallback_only_on_construction_failure_witness :
    ("boom" : String) ≠ "worker_unavailable" ∧
    exportSceneSTLBytes (exportInWorker WorkerOutcome.constructionFailure)
        (Except.ok [7]) = Except.ok [7] ∧
    exportSceneSTLBytes (exportInWorker (WorkerOutcome.errorResponse "boom"))
        (Except.ok [7]) = Except.error "boom" := by
  have h : ("boom" : String) ≠ "worker_unavailable" := by decide
  exact ⟨h, (export_fallback_only_on_construction_failure (Except.ok [7])
      "boom" h).1,
    (export_fallback_only_on_construction_failure (Except.ok [7])
      "boom" h).2.1⟩

-- ── C9: FIFO export queue ───────────────────────────────────────────────────

/-- Invariant of the export queue: settled requests followed by pending
requests always read back the submission order. -/
theorem shim_foldl_inv (events : List ShimEvent) :
    ∀ s : ShimState,
      (events.foldl shimStep s).completed ++ (events.foldl shimStep s).pending
        = s.completed ++ s.pending ++ submittedIds events := by
  induction events with
  | nil => intro s; simp [submittedIds]
  | cons e rest ih =>
    intro s
    cases e with
    | submit reqId =>
      simp only [List.foldl_cons, shimStep, submittedIds]
      rw [ih]
      simp
    | response =>
      simp only [List.foldl_cons, shimStep, submittedIds]
      cases h : s.pending with
      | nil => rw [ih]; simp [h]
      | cons reqId restPending => rw [ih]; simp [h]
    | crash =>
      simp only [List.foldl_cons, shimStep, submittedIds]
      rw [ih]
      simp

/-- **C9.** Requests are completed in FIFO submission order: for every event
sequence (submissions, worker responses, crashes, in any interleaving), the
settled requests followed by the still-pending requests equal the submission
order — so the list of settled requests is always a prefix of the submission
order and the queue never reorders, regardless of how many requests are
outstanding. -/
theorem shim_fifo_order (events : List ShimEvent) :
    (shimRun events).completed ++ (shimRun events).pending =
      submittedIds events ∧
    (shimRun events).completed <+: submittedIds events := by
  have h := shim_foldl_inv events ShimState.init
  simp only [ShimState.init, List.nil_append] at h
  exact ⟨h, ⟨(shimRun events).pending, h⟩⟩

-- ── C1: boolean-failure handling inside generate ────────────────────────────

/-- **C1 counterexample.** With default params (`hasStem` defaults to `true`,
`wallThickness` to `1.5`), a failing subtraction inside
`_performCombinedCSG` is *not* caught anywhere — `generate` propagates the
error to its caller instead of returning the pre-boolean shell: the source
wraps only `_applyTextEmboss` in try/catch. -/
theorem generate_propagates_subtract_error_cx :
    generate subtractFailOps PerfMode.quality {} =
      Except.error "csg failed" := by
  norm_num [generate, embossStage, performCombinedCSG, subtractFailOps,
    clampQ, jsOrNum, profileLookup, sizeLookup, resolveDishDepth, List.foldlM]
  rw [if_neg (List.cons_ne_nil _ _)]
  rfl

theorem foldlM_all_ok {f : Geom → Geom → Except String Geom}
    (h : ∀ a b, ∃ m, f a b = Except.ok m) :
    ∀ (l : List Geom) (init : Geom), ∃ m, l.foldlM f init = Except.ok m := by
  intro l
  induction l with
  | nil => intro init; exact ⟨init, rfl⟩
  | cons g rest ih =>
    intro init
    obtain ⟨m, hm⟩ := h init g
    obtain ⟨m2, hm2⟩ := ih m
    refine ⟨m2, ?_⟩
    rw [List.foldlM_cons, hm]
    exact hm2

theorem performCombinedCSG_ok {ops : CsgOps}
    (hsub : ∀ a b, ∃ m, ops.subtract a b = Except.ok m)
    (outerMesh : Geom) (width height wallThickness : ℚ) (hasStem : Bool) :
    ∃ m, performCombinedCSG ops outerMesh width height wallThickness hasStem =
      Except.ok m := by
  have key : ∀ l : List Geom,
      ∃ m, (if l = [] then Except.ok outerMesh
        else do
          let r ← l.foldlM (fun acc m => ops.subtract acc m) outerMesh
          pure (Geom.withVertexNormals r)) = Except.ok m := by
    intro l
    split
    · exact ⟨outerMesh, rfl⟩
    · obtain ⟨m, hm⟩ := foldlM_all_ok hsub l outerMesh
      exact ⟨Geom.withVertexNormals m, by rw [hm]; rfl⟩
  simp only [performCombinedCSG]
  exact key _

/-- `_performCombinedCSG` reads only `subtract` from the operator record. -/
theorem performCombinedCSG_union_irrelevant (ops : CsgOps)
    (u : Geom → Geom → Except String Geom) (outerMesh : Geom)
    (width height wallThickness : ℚ) (hasStem : Bool) :
    performCombinedCSG { ops with union := u } outerMesh width height
        wallThickness hasStem =
      performCombinedCSG ops outerMesh width height wallThickness hasStem :=
  rfl

/-- **C1 amended.** Only the text-emboss union is guarded: if the subtraction
operator never fails, `generate` never fails — an error raised by the emboss
union is caught inside `_applyTextEmboss` and the pre-union mesh is returned,
so running `generate` with an always-failing union is indistinguishable from
running it with emboss disabled.  (Subtraction errors, by the counterexample,
propagate.) -/
theorem generate_emboss_error_caught (ops : CsgOps) (mode : PerfMode)
    (p : KeycapParams)
    (hsub : ∀ a b, ∃ m, ops.subtract a b = Except.ok m) :
    (∃ m, generate ops mode p = Except.ok m) ∧
    (∀ s, generate { ops with union := fun _ _ => Except.error s } mode p =
        generate ops mode { p with embossEnabled := false }) := by
  constructor
  · unfold generate
    simp only
    split
    · obtain ⟨m, hm⟩ := performCombinedCSG_ok hsub
        (createHighQualityMesh mode (sizeLookup (p.size.getD "1u")).width
          (sizeLookup (p.size.getD "1u")).depth
          (jsOrNum p.height (profileLookup (p.profile.getD "Cherry")).baseHeight)
          (clampQ (1/10) 3 (p.topRadius.getD (5/10)))
          (resolveDishDepth p.dishDepth))
        (sizeLookup (p.size.getD "1u")).width
        (jsOrNum p.height (profileLookup (p.profile.getD "Cherry")).baseHeight)
        (clampQ (8/10) (35/10) (p.wallThickness.getD (15/10)))
        (p.hasStem.getD true)
      rw [hm]
      exact ⟨_, rfl⟩
    · exact ⟨_, rfl⟩
  · intro s
    have hstage : ∀ H : ℚ,
        embossStage { ops with union := fun _ _ => Except.error s } p H =
          embossStage ops { p with embossEnabled := false } H := by
      intro H
      funext mesh
      unfold embossStage
      conv_rhs => rw [if_neg (by simp)]
      by_cases hc : p.embossEnabled = true ∧ (p.embossText.getD "").trim ≠ ""
      · rw [if_pos hc]
        rfl
      · rw [if_neg hc]
    unfold generate
    simp only [performCombinedCSG_union_irrelevant]
    rw [hstage]

/-- Witness for C1 amended: with an always-succeeding subtraction and an
always-failing union, `generate` on an emboss-enabled param set succeeds, and
equals the emboss-disabled run. -/
theorem generate_emboss_error_caught_witness :
    (∃ m, generate csgOkOps PerfMode.quality
        { embossEnabled := true, embossText := some "A" } =
      Except.ok m) ∧
    generate { csgOkOps with union := fun _ _ => Except.error "union failed" }
        PerfMode.quality { embossEnabled := true, embossText := some "A" } =
      generate csgOkOps PerfMode.quality
        { embossEnabled := false, embossText := some "A" } := by
  have h := generate_emboss_error_caught csgOkOps PerfMode.quality
    { embossEnabled := true, embossText := some "A" }
    (fun a b => ⟨Geom.csgSubtract a b, rfl⟩)
  exact ⟨h.1, h.2 "union failed"⟩

-- ── C3: keycap geometry cache keyed on shape params ─────────────────────────

theorem cacheKey_of_shapeEq {p1 p2 : KeycapParams} (h : shapeParamsEq p1 p2) :
    keycapCacheKey p1 = keycapCacheKey p2 := by
  obtain ⟨h1, h2, h3, h4, h5, h6, h7⟩ := h
  unfold keycapCacheKey
  rw [h1, h2, h3, h4, h5, h6, h7]

/-- **C3 counterexample.** In Preview mode there is no cache probe at all:
two evaluations with identical shape-affecting params (differing only in
color) invoke `generatePreview` twice — the claim's "in the same mode, either
Preview or Export" fails for Preview. -/
theorem keycap_preview_generator_reinvoked_cx :
    shapeParamsEq {} { color := some "#ff0000" } ∧
    (evalKeycapTwice constEnv Mode.preview {}
      { color := some "#ff0000" }).genCount = 2 := by
  constructor
  · exact ⟨rfl, rfl, rfl, rfl, rfl, rfl, rfl⟩
  · rfl

/-- **C3 amended.** In Export mode the geometry cache is keyed on the
shape-affecting params (color excluded): a second evaluation with identical
shape fields hits the cache and the generator runs exactly once, while a
changed shape field (different cache key) causes a second run.  In Preview
mode there is no cache and the generator runs on every evaluation. -/
theorem keycap_cache_by_shape_params (env : EvalEnv) (p1 p2 : KeycapParams) :
    (shapeParamsEq p1 p2 →
      (evalKeycapTwice env Mode.export p1 p2).genCount = 1) ∧
    (keycapCacheKey p1 ≠ keycapCacheKey p2 →
      (evalKeycapTwice env Mode.export p1 p2).genCount = 2) ∧
    (evalKeycapTwice env Mode.preview p1 p2).genCount = 2 := by
  refine ⟨?_, ?_, ?_⟩
  · intro h
    have hk := cacheKey_of_shapeEq h
    simp only [evalKeycapTwice, evalKeycapGeometry, EngineState.init,
      assocFind, allocGeom, cloneGeom, lookupGeom, ← hk]
    simp [assocFind]
  · intro hne
    simp only [evalKeycapTwice, evalKeycapGeometry, EngineState.init,
      assocFind, allocGeom, cloneGeom, lookupGeom]
    rw [if_neg (fun hh => hne hh.symm)]
  · simp [evalKeycapTwice, evalKeycapGeometry, EngineState.init, allocGeom]

/-- Witness for C3 amended: a same-shape pair differing only in color gives
one generator run in Export mode, a changed `size` gives two, and Preview
always gives two. -/
theorem keycap_cache_by_shape_params_witness :
    shapeParamsEq {} { color := some "#ff0000" } ∧
    (evalKeycapTwice constEnv Mode.export {}
      { color := some "#ff0000" }).genCount = 1 ∧
    keycapCacheKey {} ≠ keycapCacheKey { size := some "2u" } ∧
    (evalKeycapTwice constEnv Mode.export {}
      { size := some "2u" }).genCount = 2 ∧
    (evalKeycapTwice constEnv Mode.preview {}
      { color := some "#ff0000" }).genCount = 2 := by
  have hs : shapeParamsEq {} { color := some "#ff0000" } :=
    ⟨rfl, rfl, rfl, rfl, rfl, rfl, rfl⟩
  have hk : keycapCacheKey ({} : KeycapParams) ≠
      keycapCacheKey { size := some "2u" } := by
    simp [keycapCacheKey]
  exact ⟨hs, (keycap_cache_by_shape_params constEnv _ _).1 hs, hk,
    (keycap_cache_by_shape_params constEnv _ _).2.1 hk,
    (keycap_cache_by_shape_params constEnv _ _).2.2⟩

-- ── C4: Boolean node with zero / one child ──────────────────────────────────

/-- **C4 counterexample.** In Preview mode a `Boolean` node with zero
children does *not* evaluate to `null`: the preview branch runs before the
zero-children check and returns an (empty) `THREE.Group`. -/
theorem boolean_empty_preview_group_cx :
    (evalNode constEnv (SceneNode.boolean none [] none none) Mode.preview
      EngineState.init).1 = some (Obj.group [] ⟨none, none⟩) ∧
    some (Obj.group [] ⟨none, none⟩) ≠ (none : Option Obj) := by
  constructor
  · simp [evalNode, evalGhostChildren, Obj.applyTransform, applyTransformTo]
  · simp

/-- **C4 amended.** In Export mode a `Boolean` node with zero children
evaluates to `null` and one with a single child passes that child's
evaluation through unchanged (state included, node transform not applied).
In Preview mode the node instead always evaluates to a `Group` of its
ghost-rendered children: an empty group for zero children, and a group
wrapping the child's evaluation for one child. -/
theorem boolean_arity (env : EvalEnv) (operation : Option String)
    (pos rot : Option (ℚ × ℚ × ℚ)) (s : EngineState) :
    evalNode env (SceneNode.boolean operation [] pos rot) Mode.export s =
      (none, s) ∧
    (∀ c, evalNode env (SceneNode.boolean operation [c] pos rot)
      Mode.export s = evalNode env c Mode.export s) ∧
    evalNode env (SceneNode.boolean operation [] pos rot) Mode.preview s =
      (some ((Obj.group [] ⟨none, none⟩).applyTransform pos rot), s) ∧
    (∀ c o s1, evalNode env c Mode.preview s = (some o, s1) →
      evalNode env (SceneNode.boolean operation [c] pos rot) Mode.preview s =
        (some ((Obj.group [o] ⟨none, none⟩).applyTransform pos rot), s1)) := by
  refine ⟨?_, ?_, ?_, ?_⟩
  · simp [evalNode]
  · intro c
    simp [evalNode]
  · simp [evalNode, evalGhostChildren]
  · intro c o s1 h
    simp [evalNode, evalGhostChildren, h]

/-- Witness for C4 amended, at a concrete box-primitive child. -/
theorem boolean_arity_witness :
    evalNode constEnv (SceneNode.boolean none [] none none) Mode.export
      EngineState.init = (none, EngineState.init) ∧
    evalNode constEnv (SceneNode.boolean none [boxNode] none none)
        Mode.preview EngineState.init =
      (some (Obj.group
          [Obj.mesh 0 { color := "#cccccc" } ⟨none, none⟩] ⟨none, none⟩),
        ⟨[(0, Geom.box 18 (115/10) 18 0)], 1, [], 0⟩) := by
  have hbox : evalNode constEnv boxNode Mode.preview EngineState.init =
      (some (Obj.mesh 0 { color := "#cccccc" } ⟨none, none⟩),
        ⟨[(0, Geom.box 18 (115/10) 18 0)], 1, [], 0⟩) := by
    simp [evalNode, boxNode, evalPrimitive, allocGeom, EngineState.init,
      Obj.applyTransform, applyTransformTo]
  refine ⟨(boolean_arity constEnv none none none EngineState.init).1, ?_⟩
  have h4 := (boolean_arity constEnv none none none EngineState.init).2.2.2
    boxNode (Obj.mesh 0 { color := "#cccccc" } ⟨none, none⟩)
    ⟨[(0, Geom.box 18 (115/10) 18 0)], 1, [], 0⟩ hbox
  simpa [Obj.applyTransform, applyTransformTo] using h4

-- ── C5: cache isolation under caller mutation ───────────────────────────────

/-- **C5.** Cache isolation: the cached copy and every handed-out copy are
independent objects.  Evaluate a keycap (cache-filling miss), mutate the
returned geometry arbitrarily, evaluate again (hit), mutate that returned
geometry too, and evaluate a third time: the second and third evaluations
still hand back exactly the generator's geometry for those params. -/
theorem keycap_cache_isolation (env : EvalEnv) (p : KeycapParams)
    (g1 g2 : Geom) :
    (let r1 := evalKeycapGeometry env Mode.export p EngineState.init
     let sM1 := setGeom r1.2 r1.1 g1
     let r2 := evalKeycapGeometry env Mode.export p sM1
     let sM2 := setGeom r2.2 r2.1 g2
     let r3 := evalKeycapGeometry env Mode.export p sM2
     lookupGeom r2.2 r2.1 = some (env.genExport p) ∧
     lookupGeom r3.2 r3.1 = some (env.genExport p)) := by
  simp [evalKeycapGeometry, EngineState.init, allocGeom, cloneGeom,
    lookupGeom, setGeom, assocFind]

-- ── C6: dish-sag formula in the deformation pass ────────────────────────────

/-- Evaluation of the deformation pass at the counterexample vertex: the
outline corner `(8.5, -9)` at the extrusion layer `y = 9.66` of a 1u Cherry
cap (`bottomWidth = bottomDepth = 18`, `height = 11.5`, `topWidth = topDepth
= 12.7`, `dishDepth = 1.2`).  Its height fraction is `t = 0.84 > 0.8` and its
post-scale radial distance `√77.336… ≈ 8.79` exceeds `maxDim = 6.35`, so the
code's `Math.min(distXZ / maxDim, 1.0)` clamps to `1` and the sag is exactly
`1.2 × 0.2 = 0.24`. -/
theorem cx_deform_eval :
    deformVertex 18 18 (23/2) (127/10) (127/10) (6/5) (17/2, 483/50, -9) =
      (11321677/1875000, 471/50, -1997943/312500) := by
  have ht : max (0:ℝ) (min 1 ((483/50 : ℝ) / (23/2))) = 21/25 := by
    norm_num [min_def, max_def]
  simp only [deformVertex, easeInOutCubic, ht]
  rw [if_neg (by norm_num), if_pos (by norm_num)]
  norm_num [max_self]
  have hB : Real.sqrt (3515625000000:ℝ) = 1875000 := by
    rw [show (3515625000000:ℝ) = 1875000^2 by norm_num]
    exact Real.sqrt_sq (by norm_num)
  have hone : (1:ℝ) ≤ Real.sqrt 271884314417293 / Real.sqrt 3515625000000 /
      (127/20) := by
    rw [hB, div_div, show ((1875000:ℝ)*(127/20)) = 11906250 by norm_num]
    refine (one_le_div (by norm_num)).2 ?_
    rw [show (11906250:ℝ) = Real.sqrt (11906250^2) from
      (Real.sqrt_sq (by norm_num)).symm]
    apply Real.sqrt_le_sqrt
    norm_num
  rw [min_eq_right hone, Real.one_rpow]
  norm_num

/-- **C6 counterexample.** The claim's sag formula
`(radialDistance/maxTopDim)^2.2 × dishDepth × ((t-0.8)/0.2)` (no clamp) does
not match the code: at the vertex of `cx_deform_eval` the radial distance
exceeds `maxTopDim`, the code clamps the ratio to `1` (sag `0.24`) while the
claimed formula gives a strictly larger sag, so the lowered `y` differs. -/
theorem deform_dish_sag_unclamped_cx :
    ¬ (∀ bW bD h tW tD dd x y z : ℝ,
        8/10 < max 0 (min 1 (y / h)) →
        (deformVertex bW bD h tW tD dd (x, y, z)).2.1 =
          y - claimedDishSag tW tD dd
            (Real.sqrt ((deformVertex bW bD h tW tD dd (x, y, z)).1 ^ 2 +
              (deformVertex bW bD h tW tD dd (x, y, z)).2.2 ^ 2))
            (max 0 (min 1 (y / h)))) := by
  intro hclaim
  have ht : max (0:ℝ) (min 1 ((483/50 : ℝ) / (23/2))) = 21/25 := by
    norm_num [min_def, max_def]
  have h := hclaim 18 18 (23/2) (127/10) (127/10) (6/5) (17/2) (483/50) (-9)
    (by rw [ht]; norm_num)
  rw [cx_deform_eval, ht] at h
  simp only [claimedDishSag] at h
  norm_num [max_self] at h
  have hB : Real.sqrt (3515625000000:ℝ) = 1875000 := by
    rw [show (3515625000000:ℝ) = 1875000^2 by norm_num]
    exact Real.sqrt_sq (by norm_num)
  have hr : (1:ℝ) < Real.sqrt 271884314417293 / Real.sqrt 3515625000000 /
      (127/20) := by
    rw [hB, div_div, show ((1875000:ℝ)*(127/20)) = 11906250 by norm_num]
    exact (one_lt_div (by norm_num)).2
      ((Real.lt_sqrt (by norm_num)).2 (by norm_num))
  have hrp : (1:ℝ) < (Real.sqrt 271884314417293 /
      Real.sqrt 3515625000000 / (127/20)) ^ ((11:ℝ)/5) :=
    (Real.one_lt_rpow_iff_of_pos (lt_trans one_pos hr)).2
      (Or.inl ⟨hr, by norm_num⟩)
  linarith [hrp]

/-- **C6 amended.** For every vertex with height fraction
`t = clamp(y/height, 0, 1)`: when `t > 0.8` the deformation pass lowers `y`
by `sag = min(radialDistance/maxTopDim, 1)^2.2 × dishDepth × ((t-0.8)/0.2)` —
the normalized radial distance is clamped to `1` before exponentiation
(`Math.min(distXZ / maxDim, 1.0)`) — where `radialDistance` is the post-scale
horizontal distance from the vertical axis and `maxTopDim = max(topWidth,
topDepth)/2`; vertices with `t ≤ 0.8` receive no dish sag. -/
theorem deform_dish_sag_clamped (bW bD h tW tD dd x y z : ℝ) :
    (8/10 < max 0 (min 1 (y / h)) →
      (deformVertex bW bD h tW tD dd (x, y, z)).2.1 =
        y - clampedDishSag tW tD dd
          (Real.sqrt ((deformVertex bW bD h tW tD dd (x, y, z)).1 ^ 2 +
            (deformVertex bW bD h tW tD dd (x, y, z)).2.2 ^ 2))
          (max 0 (min 1 (y / h)))) ∧
    (max 0 (min 1 (y / h)) ≤ 8/10 →
      (deformVertex bW bD h tW tD dd (x, y, z)).2.1 = y) := by
  constructor
  · intro ht
    simp only [deformVertex, clampedDishSag]
    rw [if_pos ht]
    ring_nf
  · intro hle
    simp only [deformVertex]
    rw [if_neg (not_lt.2 hle)]

/-- Witness for C6 amended at the corner vertex of `cx_deform_eval`
(`t = 0.84 > 0.8`) and at the bottom vertex `y = 0` (`t = 0 ≤ 0.8`). -/
theorem deform_dish_sag_clamped_witness :
    (8/10 < max (0:ℝ) (min 1 ((483/50 : ℝ) / (23/2)))) ∧
    (deformVertex 18 18 (23/2) (127/10) (127/10) (6/5)
        (17/2, 483/50, -9)).2.1 =
      483/50 - clampedDishSag (127/10) (127/10) (6/5)
        (Real.sqrt ((deformVertex 18 18 (23/2) (127/10) (127/10) (6/5)
            (17/2, 483/50, -9)).1 ^ 2 +
          (deformVertex 18 18 (23/2) (127/10) (127/10) (6/5)
            (17/2, 483/50, -9)).2.2 ^ 2))
        (max 0 (min 1 ((483/50 : ℝ) / (23/2)))) ∧
    (max (0:ℝ) (min 1 ((0:ℝ) / (23/2))) ≤ 8/10) ∧
    (deformVertex 18 18 (23/2) (127/10) (127/10) (6/5) (17/2, 0, -9)).2.1
      = 0 := by
  have h1 : (8:ℝ)/10 < max (0:ℝ) (min 1 ((483/50 : ℝ) / (23/2))) := by
    norm_num [min_def, max_def]
  have h2 : max (0:ℝ) (min 1 ((0:ℝ) / (23/2))) ≤ 8/10 := by
    norm_num [min_def, max_def]
  exact ⟨h1, (deform_dish_sag_clamped 18 18 (23/2) (127/10) (127/10) (6/5)
      (17/2) (483/50) (-9)).1 h1, h2,
    (deform_dish_sag_clamped 18 18 (23/2) (127/10) (127/10) (6/5)
      (17/2) 0 (-9)).2 h2⟩

-- ── C7: smooth-normal pass at the 0°/180° thresholds ────────────────────────

theorem cx_incident : incidentFaces cxMesh.indices 0 = [0, 1] := by
  rfl

theorem cx_faceNormal_zero : faceNormal cxMesh 0 = (0, 0, 1) := by
  simp only [faceNormal, cxMesh, vertexAt, normalize3, norm3, dot3, sub3,
    cross3, smul3]
  norm_num

theorem cx_faceNormal_one : faceNormal cxMesh 1 = (0, -1, 0) := by
  simp only [faceNormal, cxMesh, vertexAt, normalize3, norm3, dot3, sub3,
    cross3, smul3]
  norm_num

/-- Lagrange form of Cauchy–Schwarz for the triple dot product. -/
theorem dot3_sq_le (a b : Vec3) : dot3 a b ^ 2 ≤ dot3 a a * dot3 b b := by
  obtain ⟨ax, ay, az⟩ := a
  obtain ⟨bx, by', bz⟩ := b
  simp only [dot3]
  nlinarith [sq_nonneg (ax * by' - ay * bx), sq_nonneg (ax * bz - az * bx),
    sq_nonneg (ay * bz - az * by')]

theorem dot3_self_nonneg (a : Vec3) : 0 ≤ dot3 a a := by
  obtain ⟨ax, ay, az⟩ := a
  simp only [dot3]
  nlinarith [sq_nonneg ax, sq_nonneg ay, sq_nonneg az]

theorem dot3_smul3_self (c : ℝ) (v : Vec3) :
    dot3 (smul3 c v) (smul3 c v) = c ^ 2 * dot3 v v := by
  obtain ⟨ax, ay, az⟩ := v
  simp only [dot3, smul3]
  ring

/-- `THREE.Vector3.normalize` produces a vector of squared length `1` (or the
zero vector). -/
theorem normalize3_self_dot_le_one (v : Vec3) :
    dot3 (normalize3 v) (normalize3 v) ≤ 1 := by
  unfold normalize3
  split
  · rename_i h
    have h0 : dot3 v v = 0 := le_antisymm
      (Real.sqrt_eq_zero'.mp h) (dot3_self_nonneg v)
    rw [h0]
    norm_num
  · rename_i h
    have hd : dot3 v v ≠ 0 := fun h0 =>
      h (by unfold norm3; rw [h0, Real.sqrt_zero])
    rw [dot3_smul3_self, div_pow, one_pow]
    unfold norm3
    rw [Real.sq_sqrt (dot3_self_nonneg v), one_div, inv_mul_cancel₀ hd]

theorem dot3_unit_le_one {a b : Vec3} (ha : dot3 a a ≤ 1)
    (hb : dot3 b b ≤ 1) : dot3 a b ≤ 1 := by
  have hsq := dot3_sq_le a b
  have hab : dot3 a a * dot3 b b ≤ 1 := by
    nlinarith [dot3_self_nonneg a, dot3_self_nonneg b]
  nlinarith [sq_nonneg (dot3 a b - 1)]

/-- Face normals are normalized, so no dot product of two of them can exceed
`cos 0° = 1` — the step-3 accumulation condition is vacuous at threshold 0. -/
theorem faceNormal_dot_le_one (m : SNMesh) (i j : ℕ) :
    dot3 (faceNormal m i) (faceNormal m j) ≤ 1 := by
  unfold faceNormal
  exact dot3_unit_le_one (normalize3_self_dot_le_one _)
    (normalize3_self_dot_le_one _)

theorem foldl_dot_filter_none (m : SNMesh) (base : Vec3) (td : ℝ)
    (l : List ℕ) (acc : Vec3)
    (h : ∀ fi ∈ l, ¬ td < dot3 base (faceNormal m fi)) :
    l.foldl (fun acc fi =>
      if td < dot3 base (faceNormal m fi) then add3 acc (faceNormal m fi)
      else acc) acc = acc := by
  induction l generalizing acc with
  | nil => rfl
  | cons a t ih =>
    simp only [List.foldl_cons]
    rw [if_neg (h a (List.mem_cons_self a t))]
    exact ih acc (fun fi hfi => h fi (List.mem_cons_of_mem a hfi))

theorem foldl_dot_filter_all (m : SNMesh) (base : Vec3) (td : ℝ)
    (l : List ℕ) (acc : Vec3)
    (h : ∀ fi ∈ l, td < dot3 base (faceNormal m fi)) :
    l.foldl (fun acc fi =>
      if td < dot3 base (faceNormal m fi) then add3 acc (faceNormal m fi)
      else acc) acc =
    l.foldl (fun acc fi => add3 acc (faceNormal m fi)) acc := by
  induction l generalizing acc with
  | nil => rfl
  | cons a t ih =>
    simp only [List.foldl_cons]
    rw [if_pos (h a (List.mem_cons_self a t))]
    exact ih _ (fun fi hfi => h fi (List.mem_cons_of_mem a hfi))

theorem dot3_pos_of_ne_zero {v : Vec3} (h : v ≠ ((0:ℝ), (0:ℝ), (0:ℝ))) :
    0 < dot3 v v := by
  obtain ⟨ax, ay, az⟩ := v
  by_contra hc
  push_neg at hc
  have h0 : dot3 (ax, ay, az) (ax, ay, az) = 0 :=
    le_antisymm hc (dot3_self_nonneg _)
  simp only [dot3] at h0
  have hx : ax = 0 := mul_self_eq_zero.mp
    (le_antisymm (by nlinarith [mul_self_nonneg ay, mul_self_nonneg az])
      (mul_self_nonneg ax))
  have hy : ay = 0 := mul_self_eq_zero.mp
    (le_antisymm (by nlinarith [mul_self_nonneg ax, mul_self_nonneg az])
      (mul_self_nonneg ay))
  have hz : az = 0 := mul_self_eq_zero.mp
    (le_antisymm (by nlinarith [mul_self_nonneg ax, mul_self_nonneg ay])
      (mul_self_nonneg az))
  exact h (by simp [hx, hy, hz])

theorem cx_smooth_zero : smoothNormals cxMesh 0 0 = (0, 0, 1) := by
  have hcos : Real.cos (0 * Real.pi / 180) = 1 := by norm_num
  simp only [smoothNormals, smoothNormalAt, cx_incident, hcos]
  rw [foldl_dot_filter_none cxMesh (faceNormal cxMesh 0) 1 [0, 1] (0, 0, 0)
    (fun fi _ => not_lt.2 (faceNormal_dot_le_one cxMesh 0 fi))]
  have hlen : norm3 ((0:ℝ), (0:ℝ), (0:ℝ)) = 0 := by simp [norm3, dot3]
  rw [hlen]
  simp [cx_faceNormal_zero]

/-- **C7 counterexample.** Threshold 0° does not yield flat per-face normals:
on `cxMesh` the shared vertex `0` of faces `0` and `1` gets face `0`'s normal
`(0,0,1)` (its first incident face — at threshold 0 even the base face fails
the strict `dot > cos 0` test, the sum degenerates and the code falls back to
the base normal), but flat shading would require face `1`'s corner at that
vertex to carry `(0,-1,0)`. -/
theorem smooth_normals_flat_cx :
    ¬ ((∀ (m : SNMesh) (i v : ℕ), i < m.indices.length →
          (v = (m.indices.getD i (0, 0, 0)).1 ∨
           v = (m.indices.getD i (0, 0, 0)).2.1 ∨
           v = (m.indices.getD i (0, 0, 0)).2.2) →
          smoothNormals m 0 v = faceNormal m i) ∧
        (∀ (m : SNMesh) (deg : ℝ) (v : ℕ), 180 ≤ deg →
          incidentFaces m.indices v ≠ [] →
          smoothNormals m deg v = normalize3 (incidentNormalSum m v))) := by
  rintro ⟨hA, _⟩
  have h := hA cxMesh 1 0 (by norm_num [cxMesh]) (Or.inl rfl)
  rw [cx_smooth_zero, cx_faceNormal_one] at h
  have h21 := congrArg (fun p : Vec3 => p.2.1) h
  norm_num at h21

/-- **C7 amended.** For every indexed triangulated mesh and vertex with at
least one incident face: at threshold 0° the pass assigns the vertex the
normal of its *first* incident face (not per-face flat normals — a shared
vertex carries a single normal); at threshold exactly 180°, provided no
incident face normal is exactly antipodal to the base normal (`dot = -1`,
which the strict `>` test would exclude) and the incident normal sum is
nonzero, the pass assigns the normalized sum of the normals of all incident
faces.  (Thresholds strictly above 180° have `cos θ > -1` again and exclude
near-antipodal faces, so the claim's "or more" does not hold in general.) -/
theorem smooth_normals_extremes (m : SNMesh) (v f0 : ℕ) (rest : List ℕ)
    (hinc : incidentFaces m.indices v = f0 :: rest) :
    smoothNormals m 0 v = faceNormal m f0 ∧
    ((∀ fi ∈ incidentFaces m.indices v,
        -1 < dot3 (faceNormal m f0) (faceNormal m fi)) →
      incidentNormalSum m v ≠ ((0:ℝ), (0:ℝ), (0:ℝ)) →
      smoothNormals m 180 v = normalize3 (incidentNormalSum m v)) := by
  constructor
  · have hcos : Real.cos (0 * Real.pi / 180) = 1 := by
      norm_num
    simp only [smoothNormals, smoothNormalAt, hinc, hcos]
    rw [foldl_dot_filter_none m (faceNormal m f0) 1 (f0 :: rest) (0, 0, 0)
      (fun fi _ => not_lt.2 (faceNormal_dot_le_one m f0 fi))]
    have hlen : norm3 ((0:ℝ), (0:ℝ), (0:ℝ)) = 0 := by
      simp [norm3, dot3]
    rw [hlen]
    simp
  · intro hall hsum
    rw [hinc] at hall
    have hcos : Real.cos (180 * Real.pi / 180) = -1 := by
      rw [mul_div_cancel_left₀ Real.pi (by norm_num : (180:ℝ) ≠ 0),
        Real.cos_pi]
    simp only [smoothNormals, smoothNormalAt, hinc, hcos]
    rw [foldl_dot_filter_all m (faceNormal m f0) (-1) (f0 :: rest) (0, 0, 0)
      hall]
    have hsum_eq : (f0 :: rest).foldl
        (fun acc fi => add3 acc (faceNormal m fi)) ((0:ℝ), (0:ℝ), (0:ℝ)) =
        incidentNormalSum m v := by
      unfold incidentNormalSum
      rw [hinc]
    rw [hsum_eq]
    have hpos : 0 < norm3 (incidentNormalSum m v) :=
      Real.sqrt_pos.2 (dot3_pos_of_ne_zero hsum)
    rw [if_pos hpos]
    unfold normalize3
    rw [if_neg (ne_of_gt hpos)]

/-- Witness for C7 amended on `cxMesh` at vertex 0 (incident faces `[0, 1]`,
no antipodal pair, nonzero normal sum). -/
theorem smooth_normals_extremes_witness :
    incidentFaces cxMesh.indices 0 = [0, 1] ∧
    smoothNormals cxMesh 0 0 = faceNormal cxMesh 0 ∧
    (∀ fi ∈ incidentFaces cxMesh.indices 0,
      -1 < dot3 (faceNormal cxMesh 0) (faceNormal cxMesh fi)) ∧
    incidentNormalSum cxMesh 0 ≠ ((0:ℝ), (0:ℝ), (0:ℝ)) ∧
    smoothNormals cxMesh 180 0 = normalize3 (incidentNormalSum cxMesh 0) := by
  have hall : ∀ fi ∈ incidentFaces cxMesh.indices 0,
      -1 < dot3 (faceNormal cxMesh 0) (faceNormal cxMesh fi) := by
    rw [cx_incident]
    intro fi hfi
    rcases List.mem_cons.mp hfi with rfl | hfi2
    · rw [cx_faceNormal_zero]
      norm_num [dot3]
    · rcases List.mem_cons.mp hfi2 with rfl | hfi3
      · rw [cx_faceNormal_zero, cx_faceNormal_one]
        norm_num [dot3]
      · exact absurd hfi3 (List.not_mem_nil fi)
  have hsum : incidentNormalSum cxMesh 0 ≠ ((0:ℝ), (0:ℝ), (0:ℝ)) := by
    unfold incidentNormalSum
    rw [cx_incident]
    simp only [List.foldl_cons, List.foldl_nil, cx_faceNormal_zero,
      cx_faceNormal_one]
    simp [add3, Prod.ext_iff]
  exact ⟨cx_incident, (smooth_normals_extremes cxMesh 0 0 [1] cx_incident).1,
    hall, hsum,
    (smooth_normals_extremes cxMesh 0 0 [1] cx_incident).2 hall hsum⟩

end KeycapStudio
